import Mathlib

/-!
Shallow embedding of the `Scaffold` React Native layout component
(`src/scaffold/Scaffold.tsx` and its `types/*.ts` declarations).

Modelling conventions:
* JavaScript `x || d` on optional numbers/strings is embedded with the JS
  falsiness rules that matter here (`0`, `''` and `undefined` are falsy).
* JavaScript objects used as open records (for the platform-override merge)
  are embedded as total functions `String → Option α`; spread syntax
  `{...base, ...ov}` becomes a per-key right-biased merge.
* Opaque caller-supplied React nodes and style objects are embedded as a
  small inductive `Node` and numeric style tokens: the component never
  inspects them, it only places them.
* Caller callbacks that may throw are embedded as `... → Except String β`.
* `useColorScheme()` is `Option Scheme` (`null` ↦ `none`), `Platform.OS`
  is the inductive `OS`.
-/

namespace Scaffold

/-! ### JavaScript-semantics primitives -/

/-- JS `x || d` for an optional number: `undefined` and `0` are falsy. -/
def jsOrNum (x : Option Nat) (d : Nat) : Nat :=
  match x with
  | some n => if n = 0 then d else n
  | none => d

/-- JS `x || d` for an optional string: `undefined` and `''` are falsy. -/
def jsOrStr (x : Option String) (d : String) : String :=
  match x with
  | some s => if s = "" then d else s
  | none => d

/-- JS `a || b` where both sides are optional strings (the result may still
be `undefined`). -/
def jsOrOpt (a b : Option String) : Option String :=
  match a with
  | some s => if s = "" then b else some s
  | none => b

/-- A dimension value: RN accepts numbers or strings such as `'100%'`. -/
inductive Dim where
  | num (n : Nat)
  | str (s : String)
deriving DecidableEq, Repr

/-- JS `x || d` for an optional dimension (`0` and `''` falsy). -/
def jsOrDim (x : Option Dim) (d : Dim) : Dim :=
  match x with
  | some (Dim.num n) => if n = 0 then d else Dim.num n
  | some (Dim.str s) => if s = "" then d else Dim.str s
  | none => d

/-- Opaque caller-supplied render output (React nodes). The scaffold never
inspects these beyond placing them; `view` mirrors a `<View>` wrapper the
scaffold itself builds around content, `text` a `<Text>` element, `seq`
sibling composition and `nil` the absence of a child (`null`). -/
inductive Node where
  | tok (id : Nat)
  | text (s : String)
  | view (child : Node)
  | seq (first rest : Node)
  | nil
deriving DecidableEq, Repr

/-- Opaque caller-supplied style objects (`containerStyle`, `titleStyle`, …)
are carried as tokens: the scaffold forwards them without inspection. -/
abbrev StyleTok := Nat

/-- The system color scheme as reported by `useColorScheme()` when known. -/
inductive Scheme where
  | light
  | dark
deriving DecidableEq, Repr

/-- Native status-bar content style (`'light-content' | 'dark-content'`). -/
inductive BarStyle where
  | lightContent
  | darkContent
deriving DecidableEq, Repr

/-- Status-bar `contentAlignment` values (the keys of `alignMap`). -/
inductive AlignSB where
  | flexStart
  | center
  | flexEnd
  | spaceBetween
deriving DecidableEq, Repr

/-- Flex direction values. -/
inductive FlexDir where
  | row
  | column
  | rowReverse
  | columnReverse
deriving DecidableEq, Repr

/-- Source `alignItems` values. -/
inductive AlignItems where
  | flexStart
  | center
  | flexEnd
  | stretch
  | baseline
deriving DecidableEq, Repr

/-- Source `overflow` values. -/
inductive Overflow where
  | hidden
  | visible
  | scroll
deriving DecidableEq, Repr

/-- Source `Platform.OS`: the two targeted operating systems plus the catch-all
else-branch of the platform checks. -/
inductive OS where
  | ios
  | android
  | other
deriving DecidableEq, Repr

/-! ### Platform-override merge (`getPlatformStatusBarConfig` and the six
identically-shaped siblings, Scaffold.tsx lines 51–147)

A config object is embedded as an open record: a total function from key
names to optional field values, plus the two distinguished OS-tagged
sub-records. -/

/-- A JS object viewed as an open record of optional fields. -/
def ObjRec (α : Type) : Type := String → Option α

/-- The empty record `{}`. -/
def emptyRec {α : Type} : ObjRec α := fun _ => none

/-- JS spread merge `{...base, ...ov}`: a key present in `ov` wins,
otherwise the base value (if any) is kept. -/
def spread {α : Type} (base ov : ObjRec α) : ObjRec α :=
  fun k =>
    match ov k with
    | some v => some v
    | none => base k

/-- A region configuration: flat base fields plus the optional `ios` /
`android` override sub-records (recursion depth 1, as in the source types). -/
structure RegionConfig (α : Type) where
  fields : ObjRec α
  ios : Option (ObjRec α)
  android : Option (ObjRec α)

/-- Source `getPlatformStatusBarConfig` (Scaffold.tsx lines 51–61): start from a
shallow copy of the base (`{...statusBar}`, the empty record when the prop
is `undefined`), then, when the active OS has an override sub-record,
shallow-merge it in.  The other six regions' resolvers (lines 64–147) are
textually identical up to the guarded `if (!x) return {}` early-out, which
produces the same empty record. -/
def getPlatformStatusBarConfig {α : Type} (os : OS) (statusBar : Option (RegionConfig α)) :
    ObjRec α :=
  let baseConfig : ObjRec α :=
    match statusBar with
    | none => emptyRec
    | some c => c.fields
  match os, statusBar with
  | OS.ios, some c =>
      match c.ios with
      | some ov => spread baseConfig ov
      | none => baseConfig
  | OS.android, some c =>
      match c.android with
      | some ov => spread baseConfig ov
      | none => baseConfig
  | _, _ => baseConfig

/-- The spec's worked example base `{a:1, b:2}`. -/
def exBase : ObjRec Nat := fun k =>
  if k = "a" then some 1 else if k = "b" then some 2 else none

/-- The spec's worked example override `{b:3}`. -/
def exOv : ObjRec Nat := fun k =>
  if k = "b" then some 3 else none

end Scaffold

namespace Scaffold

/-! ### Theme adaptation (Scaffold.tsx lines 207–252) -/

/-- The patch emitted by a theme-adaptation helper: an optional background
color and (status bar only) an optional content style. -/
structure AdaptivePatch where
  backgroundColor : Option String := none
  style : Option BarStyle := none
deriving DecidableEq, Repr

/-- Status-bar configuration, restricted to the fields
`Scaffold.tsx` reads (types/statusBar.ts).  Callback props that only get
forwarded to the host are omitted. -/
structure StatusBarConfig where
  hidden : Bool := false
  translucent : Bool := false
  adaptiveTheme : Bool := false
  autoDetectTheme : Bool := false
  backgroundColor : Option String := none
  style : Option BarStyle := none
  animatedVisibility : Bool := false
  height : Option Nat := none
  zIndex : Option Nat := none
  containerStyle : Option StyleTok := none
  contentAlignment : Option AlignSB := none
  elevated : Bool := false
  title : Option (String ⊕ Node) := none
  titleStyle : Option StyleTok := none
  content : Option Node := none
  renderCustomStatusBar : Option (Nat → Option String → Node) := none

/-- Source `getAdaptiveStatusBarStyle` (lines 207–229): if `adaptiveTheme` is set
and a color scheme is known, emit a background color (the config's own
color if present, else a fixed dark/light default) and a content style;
else if `autoDetectTheme` is set and a scheme is known, emit only the
content style; else emit the empty patch. -/
def getAdaptiveStatusBarStyle (cfg : StatusBarConfig) (colorScheme : Option Scheme) :
    AdaptivePatch :=
  match colorScheme with
  | some scheme =>
      if cfg.adaptiveTheme then
        { backgroundColor :=
            some (if scheme = Scheme.dark then jsOrStr cfg.backgroundColor "#1a1a1a"
                  else jsOrStr cfg.backgroundColor "#ffffff")
          style :=
            some (if scheme = Scheme.dark then BarStyle.lightContent
                  else BarStyle.darkContent) }
      else if cfg.autoDetectTheme then
        { style :=
            some (if scheme = Scheme.dark then BarStyle.lightContent
                  else BarStyle.darkContent) }
      else {}
  | none => {}

/-- Horizontal justification values accepted by the app bar / bottom nav. -/
inductive Justify where
  | flexStart
  | center
  | flexEnd
  | spaceBetween
  | spaceAround
  | spaceEvenly
deriving DecidableEq, Repr

/-- Vertical alignment values. -/
inductive AlignV where
  | flexStart
  | center
  | flexEnd
deriving DecidableEq, Repr

/-- Leading-section configuration of the app bar (types/appBar.ts,
`AppBarLeadingProps`). -/
structure AppBarLeading where
  backIcon : Option Node := none
  title : Option (String ⊕ Node) := none
  titleStyle : Option StyleTok := none
  subTitle : Option (String ⊕ Node) := none
  subTitleStyle : Option StyleTok := none
  paddingHorizontal : Option Nat := none
  paddingVertical : Option Nat := none
  gap : Option Nat := none
  style : Option StyleTok := none
deriving DecidableEq

/-- Arguments passed to a caller-supplied custom app-bar renderer. -/
structure AppBarCustomArgs where
  height : Nat
  backgroundColor : String
  leading : Option Node
  center : Option Node
  trailing : Option Node
deriving DecidableEq

/-- App-bar configuration, restricted to the fields `Scaffold.tsx` reads
(types/appBar.ts). -/
structure AppBarConfig where
  hidden : Bool := false
  adaptiveTheme : Bool := false
  autoDetectTheme : Bool := false
  backgroundColor : Option String := none
  height : Option Nat := none
  width : Option Dim := none
  paddingHorizontal : Option Nat := none
  paddingVertical : Option Nat := none
  gap : Option Nat := none
  verticalAlignment : Option AlignV := none
  horizontalJustification : Option Justify := none
  zIndex : Option Nat := none
  elevated : Bool := false
  containerStyle : Option StyleTok := none
  backgroundView : Option Node := none
  rtl : Option Bool := none
  leading : Option AppBarLeading := none
  center : Option Node := none
  trailing : Option Node := none
  renderCustomAppBar : Option (AppBarCustomArgs → Node) := none

/-- Source `getAdaptiveAppBarStyle` (lines 232–252): both the adaptive and the
auto-detect branch emit the same background-color rule; the adaptive
branch is checked first. -/
def getAdaptiveAppBarStyle (cfg : AppBarConfig) (colorScheme : Option Scheme) :
    AdaptivePatch :=
  match colorScheme with
  | some scheme =>
      if cfg.adaptiveTheme then
        { backgroundColor :=
            some (if scheme = Scheme.dark then jsOrStr cfg.backgroundColor "#1a1a1a"
                  else jsOrStr cfg.backgroundColor "#ffffff") }
      else if cfg.autoDetectTheme then
        { backgroundColor :=
            some (if scheme = Scheme.dark then jsOrStr cfg.backgroundColor "#1a1a1a"
                  else jsOrStr cfg.backgroundColor "#ffffff") }
      else {}
  | none => {}

/-! ### Final color resolution (Scaffold.tsx lines 378–406) -/

/-- Source `finalStatusBarBgColor`: adaptive patch wins, else the config's own
background color; no fixed default for the status bar. -/
def finalStatusBarBgColor (cfg : StatusBarConfig) (scheme : Option Scheme) : Option String :=
  jsOrOpt (getAdaptiveStatusBarStyle cfg scheme).backgroundColor cfg.backgroundColor

/-- Source `finalStatusBarStyle`: adaptive style wins, else the config's own. -/
def finalStatusBarStyle (cfg : StatusBarConfig) (scheme : Option Scheme) : Option BarStyle :=
  match (getAdaptiveStatusBarStyle cfg scheme).style with
  | some s => some s
  | none => cfg.style

/-- Source `finalAppBarBgColor`: adaptive patch wins, else the config's own
background color, else `'#ffffff'`. -/
def finalAppBarBgColor (cfg : AppBarConfig) (scheme : Option Scheme) : String :=
  jsOrStr (jsOrOpt (getAdaptiveAppBarStyle cfg scheme).backgroundColor cfg.backgroundColor)
    "#ffffff"

/-! ### Status-bar rendering (Scaffold.tsx lines 446–530) -/

/-- Source `statusBarHeightValue` (lines 409–412): the config's explicit numeric
height if provided, else the measured state value. -/
def statusBarHeightValue (cfg : StatusBarConfig) (measured : Nat) : Nat :=
  match cfg.height with
  | some h => h
  | none => measured

/-- Source `renderStatusBarTitle` (lines 447–462): a `<Text>` element when the
title is a string, the node itself otherwise (`null` when absent). -/
def renderStatusBarTitle (cfg : StatusBarConfig) : Node :=
  match cfg.title with
  | none => Node.nil
  | some (Sum.inl s) => Node.text s
  | some (Sum.inr n) => n

/-- Source `renderStatusBarContent` (lines 465–475): caller content wins over the
title; `null` when neither is present. -/
def renderStatusBarContent (cfg : StatusBarConfig) : Node :=
  match cfg.content with
  | some c => c
  | none =>
      match cfg.title with
      | some _ => renderStatusBarTitle cfg
      | none => Node.nil

/-- The default status-bar visual: the style fields the source writes into
the container `<View>` plus the rendered content child. -/
structure StatusBarDefaultVisual where
  height : Nat
  backgroundColor : Option String
  justifyContent : AlignSB
  zIndex : Nat
  elevated : Bool
  containerStyle : Option StyleTok
  content : Node
deriving DecidableEq

/-- The status-bar render result: custom branch (wrapper `<View>` carrying
the measured height, `zIndex || 100` and `containerStyle` around the
callback's output) or the default visual. -/
inductive StatusBarRender where
  | custom (height : Nat) (zIndex : Nat) (containerStyle : Option StyleTok) (content : Node)
  | defaultVisual (d : StatusBarDefaultVisual)
deriving DecidableEq

/-- Source `renderStatusBarBackground` (lines 478–530). -/
def renderStatusBarBackground (cfg : StatusBarConfig) (measured : Nat)
    (scheme : Option Scheme) : StatusBarRender :=
  match cfg.renderCustomStatusBar with
  | some f =>
      StatusBarRender.custom (statusBarHeightValue cfg measured) (jsOrNum cfg.zIndex 100)
        cfg.containerStyle
        (f (statusBarHeightValue cfg measured) (finalStatusBarBgColor cfg scheme))
  | none =>
      StatusBarRender.defaultVisual
        { height := statusBarHeightValue cfg measured
          backgroundColor := finalStatusBarBgColor cfg scheme
          justifyContent := cfg.contentAlignment.getD AlignSB.center
          zIndex := jsOrNum cfg.zIndex 100
          elevated := cfg.elevated
          containerStyle := cfg.containerStyle
          content := renderStatusBarContent cfg }

/-! ### App-bar rendering (Scaffold.tsx lines 533–704) -/

/-- Source `renderAppBarLeading` (lines 533–592): `null` when no leading config;
otherwise a container `<View>` holding the optional back icon and the
optional title/subtitle stack. -/
def renderAppBarLeading (cfg : AppBarConfig) : Option Node :=
  match cfg.leading with
  | none => none
  | some l =>
      let icon : Node :=
        match l.backIcon with
        | some i => Node.view i
        | none => Node.nil
      let titleNode : Node :=
        match l.title with
        | none => Node.nil
        | some (Sum.inl s) => Node.view (Node.text s)
        | some (Sum.inr n) => Node.view n
      let subTitleNode : Node :=
        match l.subTitle with
        | none => Node.nil
        | some (Sum.inl s) => Node.view (Node.text s)
        | some (Sum.inr n) => Node.view n
      let texts : Node :=
        if l.title.isSome || l.subTitle.isSome then
          Node.view (Node.seq titleNode subTitleNode)
        else Node.nil
      some (Node.view (Node.seq icon texts))

/-- Source `renderAppBarCenter` (lines 595–598): `null` when absent, else the
caller node verbatim. -/
def renderAppBarCenter (cfg : AppBarConfig) : Option Node :=
  cfg.center

/-- Source `renderAppBarTrailing` (lines 601–604): `null` when absent, else the
caller node verbatim. -/
def renderAppBarTrailing (cfg : AppBarConfig) : Option Node :=
  cfg.trailing

/-- The default app-bar visual: the style fields the source writes into the
container `<View>` plus its children. -/
structure AppBarDefaultVisual where
  height : Nat
  width : Dim
  backgroundColor : String
  rowReverse : Bool
  paddingHorizontal : Nat
  paddingVertical : Nat
  gap : Nat
  alignItems : AlignV
  justifyContent : Justify
  zIndex : Nat
  elevated : Bool
  containerStyle : Option StyleTok
  backgroundView : Option Node
  leading : Option Node
  center : Option Node
  trailing : Option Node
deriving DecidableEq

/-- The app-bar render result: hidden, custom branch (wrapper `<View>`
carrying the measured height, `zIndex || 1000` and `containerStyle` around
the callback's output), or the default visual. -/
inductive AppBarRender where
  | hidden
  | custom (height : Nat) (zIndex : Nat) (containerStyle : Option StyleTok) (content : Node)
  | defaultVisual (d : AppBarDefaultVisual)
deriving DecidableEq

/-- Source `renderAppBar` (lines 607–704).  `appBarHeight` is the transient
measured-height state (initialised to `appBar?.height || 56`); `systemRTL`
is `I18nManager.isRTL`.  Note the default visual reads
`platformAppBarConfig.backgroundColor || '#ffffff'` directly rather than
`finalAppBarBgColor` (line 656). -/
def renderAppBar (cfg : AppBarConfig) (appBarHeight : Nat) (scheme : Option Scheme)
    (systemRTL : Bool) : AppBarRender :=
  if cfg.hidden then AppBarRender.hidden
  else
    match cfg.renderCustomAppBar with
    | some f =>
        AppBarRender.custom appBarHeight (jsOrNum cfg.zIndex 1000) cfg.containerStyle
          (f { height := appBarHeight
               backgroundColor := finalAppBarBgColor cfg scheme
               leading := renderAppBarLeading cfg
               center := renderAppBarCenter cfg
               trailing := renderAppBarTrailing cfg })
    | none =>
        let isRTL := cfg.rtl.getD systemRTL
        AppBarRender.defaultVisual
          { height := jsOrNum cfg.height 56
            width := jsOrDim cfg.width (Dim.str "100%")
            backgroundColor := jsOrStr cfg.backgroundColor "#ffffff"
            rowReverse := isRTL
            paddingHorizontal := jsOrNum cfg.paddingHorizontal 0
            paddingVertical := jsOrNum cfg.paddingVertical 0
            gap := jsOrNum cfg.gap 0
            alignItems := cfg.verticalAlignment.getD AlignV.center
            justifyContent := cfg.horizontalJustification.getD Justify.spaceBetween
            zIndex := jsOrNum cfg.zIndex 1000
            elevated := cfg.elevated
            containerStyle := cfg.containerStyle
            backgroundView := cfg.backgroundView
            leading := renderAppBarLeading cfg
            center := renderAppBarCenter cfg
            trailing := renderAppBarTrailing cfg }

/-- Projection: the default visual's background color, when the render took
the default branch. -/
def AppBarRender.visualBg : AppBarRender → Option String
  | AppBarRender.defaultVisual d => some d.backgroundColor
  | _ => none

/-- Projection: the default visual's height, when the render took the
default branch. -/
def AppBarRender.visualHeight : AppBarRender → Option Nat
  | AppBarRender.defaultVisual d => some d.height
  | _ => none

/-! ### Body rendering (Scaffold.tsx lines 707–764, types/body.ts) -/

/-- Arguments of a caller-supplied custom body renderer
(types/body.ts `renderCustomBody`): the source supplies only the
background color (lines 716–718); the scroll-related arguments declared in
the type are never filled in. -/
structure BodyCustomArgs where
  backgroundColor : Option String := none
  scrollPosition : Option Int := none
  contentHeight : Option Nat := none
  viewportHeight : Option Nat := none
deriving DecidableEq

/-- Body configuration, restricted to the fields `Scaffold.tsx` reads plus
`scrollEnabled` (declared and documented in types/body.ts but never read by
Scaffold.tsx). -/
structure BodyConfig where
  backgroundColor : Option String := none
  adaptiveTheme : Bool := false
  autoDetectTheme : Bool := false
  scrollEnabled : Bool := false
  paddingHorizontal : Option Nat := none
  paddingVertical : Option Nat := none
  paddingTop : Option Nat := none
  paddingBottom : Option Nat := none
  paddingLeft : Option Nat := none
  paddingRight : Option Nat := none
  margin : Option Nat := none
  marginHorizontal : Option Nat := none
  marginVertical : Option Nat := none
  borderRadius : Option Nat := none
  borderColor : Option String := none
  borderWidth : Option Nat := none
  overflow : Option Overflow := none
  opacity : Option Nat := none
  zIndex : Option Nat := none
  flexDirection : Option FlexDir := none
  justifyContent : Option Justify := none
  alignItems : Option AlignItems := none
  gap : Option Nat := none
  elevated : Bool := false
  containerStyle : Option StyleTok := none
  backgroundView : Option Node := none
  view : Option Node := none
  renderCustomBody : Option (BodyCustomArgs → Node) := none

/-- Source `getAdaptiveBodyStyle` (lines 255–275): same shape as the app-bar
adapter. -/
def getAdaptiveBodyStyle (cfg : BodyConfig) (colorScheme : Option Scheme) : AdaptivePatch :=
  match colorScheme with
  | some scheme =>
      if cfg.adaptiveTheme then
        { backgroundColor :=
            some (if scheme = Scheme.dark then jsOrStr cfg.backgroundColor "#1a1a1a"
                  else jsOrStr cfg.backgroundColor "#ffffff") }
      else if cfg.autoDetectTheme then
        { backgroundColor :=
            some (if scheme = Scheme.dark then jsOrStr cfg.backgroundColor "#1a1a1a"
                  else jsOrStr cfg.backgroundColor "#ffffff") }
      else {}
  | none => {}

/-- Source `finalBodyBgColor` (lines 387–390). -/
def finalBodyBgColor (cfg : BodyConfig) (scheme : Option Scheme) : String :=
  jsOrStr (jsOrOpt (getAdaptiveBodyStyle cfg scheme).backgroundColor cfg.backgroundColor)
    "#ffffff"

/-- The style fields of the default (static) body container `<View>`. -/
structure BodyStaticStyle where
  backgroundColor : String
  paddingHorizontal : Option Nat
  paddingVertical : Option Nat
  paddingTop : Option Nat
  paddingBottom : Option Nat
  paddingLeft : Option Nat
  paddingRight : Option Nat
  margin : Option Nat
  marginHorizontal : Option Nat
  marginVertical : Option Nat
  borderRadius : Option Nat
  borderColor : Option String
  borderWidth : Option Nat
  overflow : Option Overflow
  opacity : Option Nat
  zIndex : Option Nat
  flexDirection : Option FlexDir
  justifyContent : Option Justify
  alignItems : Option AlignItems
  gap : Option Nat
  elevated : Bool
  containerStyle : Option StyleTok
deriving DecidableEq

/-- The body render result.  The source has exactly two reachable branches:
the custom renderer and the static container (lines 713–763); the
`if (!platformBodyConfig)` early-out (line 708) is unreachable because the
memoised config is at least `{}`. -/
inductive BodyRender where
  | custom (content : Node)
  | static (style : BodyStaticStyle) (backgroundView : Option Node) (view : Option Node)
deriving DecidableEq

/-- Source `renderBodyContent` (lines 707–764).  Note: `scrollEnabled` is never
consulted; there is no scroll-container branch. -/
def renderBodyContent (cfg : BodyConfig) (scheme : Option Scheme) : BodyRender :=
  match cfg.renderCustomBody with
  | some f =>
      BodyRender.custom (f { backgroundColor := some (finalBodyBgColor cfg scheme) })
  | none =>
      BodyRender.static
        { backgroundColor := finalBodyBgColor cfg scheme
          paddingHorizontal := cfg.paddingHorizontal
          paddingVertical := cfg.paddingVertical
          paddingTop := cfg.paddingTop
          paddingBottom := cfg.paddingBottom
          paddingLeft := cfg.paddingLeft
          paddingRight := cfg.paddingRight
          margin := cfg.margin
          marginHorizontal := cfg.marginHorizontal
          marginVertical := cfg.marginVertical
          borderRadius := cfg.borderRadius
          borderColor := cfg.borderColor
          borderWidth := cfg.borderWidth
          overflow := cfg.overflow
          opacity := cfg.opacity
          zIndex := cfg.zIndex
          flexDirection := cfg.flexDirection
          justifyContent := cfg.justifyContent
          alignItems := cfg.alignItems
          gap := cfg.gap
          elevated := cfg.elevated
          containerStyle := cfg.containerStyle }
        cfg.backgroundView cfg.view

/-- Projection: the caller view rendered by the static branch. -/
def BodyRender.staticView : BodyRender → Option (Option Node)
  | BodyRender.static _ _ v => some v
  | _ => none

/-- Projection: the static branch's background color. -/
def BodyRender.staticBg : BodyRender → Option String
  | BodyRender.static s _ _ => some s.backgroundColor
  | _ => none

/-- A concrete body configuration requesting scrolling (C1's failing
input). -/
def bodyScrollCfg : BodyConfig :=
  { scrollEnabled := true, view := some (Node.tok 7) }

/-- A concrete app-bar configuration with `adaptiveTheme` and no explicit
background color (C2's failing input). -/
def appBarAdaptiveCfg : AppBarConfig :=
  { adaptiveTheme := true }

/-- A concrete app-bar configuration with a custom renderer (C5's
counterexample input). -/
def appBarCustomCfg : AppBarConfig :=
  { renderCustomAppBar := some (fun a => Node.tok a.height) }

/-! ### Top navigation bar (Scaffold.tsx lines 1175–1382,
types/topNavigationBar.ts) -/

/-- A tab identifier: string or (integral) number, as in
`types/topNavigationBar.ts` (`id: string | number`). -/
inductive TabId where
  | num (n : Int)
  | str (s : String)
deriving DecidableEq, Repr

/-- JS `String(id)` on a tab id (integral numbers render in decimal). -/
def jsStringOfId : TabId → String
  | TabId.num n => toString n
  | TabId.str s => s

/-- JS `String(activeTabId)` where the active id may be `undefined`
(`String(undefined) = "undefined"`). -/
def jsStringOfActiveId : Option TabId → String
  | some i => jsStringOfId i
  | none => "undefined"

/-- A caller callback that may throw, embedded as `Except`. -/
abbrev JsCallback (α : Type) := α → Except String Unit

/-- A tab descriptor (types/topNavigationBar.ts `TabItem`). -/
structure Tab where
  id : TabId
  label : Option (String ⊕ Node) := none
  icon : Option Node := none
  onPress : Option (JsCallback Unit) := none

/-- Top-navigation-bar configuration, restricted to the fields
`Scaffold.tsx` reads. -/
structure TopNavConfig where
  hidden : Bool := false
  tabs : List Tab := []
  activeTabId : Option TabId := none
  onTabChange : Option (JsCallback TabId) := none
  showIndicator : Bool := false
  scrollable : Bool := false
  adaptiveTheme : Bool := false
  autoDetectTheme : Bool := false
  backgroundColor : Option String := none
  activeTabColor : Option String := none
  inactiveTabColor : Option String := none
  height : Option Nat := none
  zIndex : Option Nat := none
  containerStyle : Option StyleTok := none
  customTopNavigationBar : Option (Unit → Node) := none

/-- Source `getAdaptiveTopNavStyle` (lines 347–367): same shape as the app-bar
adapter. -/
def getAdaptiveTopNavStyle (cfg : TopNavConfig) (colorScheme : Option Scheme) : AdaptivePatch :=
  match colorScheme with
  | some scheme =>
      if cfg.adaptiveTheme then
        { backgroundColor :=
            some (if scheme = Scheme.dark then jsOrStr cfg.backgroundColor "#1a1a1a"
                  else jsOrStr cfg.backgroundColor "#ffffff") }
      else if cfg.autoDetectTheme then
        { backgroundColor :=
            some (if scheme = Scheme.dark then jsOrStr cfg.backgroundColor "#1a1a1a"
                  else jsOrStr cfg.backgroundColor "#ffffff") }
      else {}
  | none => {}

/-- Source `finalTopNavBgColor` (lines 403–406). -/
def finalTopNavBgColor (cfg : TopNavConfig) (scheme : Option Scheme) : String :=
  jsOrStr (jsOrOpt (getAdaptiveTopNavStyle cfg scheme).backgroundColor cfg.backgroundColor)
    "#ffffff"

/-- The outcome of one tab press (`handlePress`, lines 1283–1301): the
console warnings emitted for caught callback exceptions and the list of
invocations of the global `onTabChange` callback. -/
structure PressOutcome where
  warnings : List String
  tabChangeCalls : List TabId
deriving DecidableEq

/-- Source `handlePress` for a tab (lines 1283–1301): the tab's own `onPress` is
invoked first inside a try/catch that logs and continues; then the global
`onTabChange` is invoked with the tab's id, also inside a try/catch. -/
def handlePress (tab : Tab) (onTabChange : Option (JsCallback TabId)) : PressOutcome :=
  let w1 : List String :=
    match tab.onPress with
    | some f =>
        match f () with
        | Except.ok _ => []
        | Except.error e => ["Error in tab onPress handler: " ++ e]
    | none => []
  match onTabChange with
  | some g =>
      match g tab.id with
      | Except.ok _ => { warnings := w1, tabChangeCalls := [tab.id] }
      | Except.error e =>
          { warnings := w1 ++ ["Error in onTabChange handler: " ++ e]
            tabChangeCalls := [tab.id] }
  | none => { warnings := w1, tabChangeCalls := [] }

/-- One rendered tab cell (lines 1277–1355): key, active highlight, the
icon/label gap and the label color the source computes. -/
structure RenderedTab where
  key : String
  isActive : Bool
  gap : Nat
  labelColor : Option String
  indicator : Bool
deriving DecidableEq

/-- Rendering of a single tab at its index (the body of the
`tabs.map((tab, index) => ...)` at line 1277). -/
def renderOneTab (cfg : TopNavConfig) (tab : Tab) (index : Nat) : RenderedTab :=
  let isActive := jsStringOfId tab.id == jsStringOfActiveId cfg.activeTabId
  { key := "tab-" ++ jsStringOfId tab.id ++ "-" ++ toString index
    isActive := isActive
    gap := if tab.icon.isSome && tab.label.isSome then 8 else 0
    labelColor :=
      match tab.label with
      | some (Sum.inl _) =>
          some (if isActive then jsOrStr cfg.activeTabColor "#007AFF"
                else jsOrStr cfg.inactiveTabColor "#666666")
      | _ => none
    indicator := cfg.showIndicator && isActive }

/-- The indexed map over the tab list (`tabs.map((tab, index) => ...)`). -/
def renderTabsFrom (cfg : TopNavConfig) : Nat → List Tab → List RenderedTab
  | _, [] => []
  | i, t :: ts => renderOneTab cfg t i :: renderTabsFrom cfg (i + 1) ts

/-- Source `renderTabs` (lines 1269–1356): `null` when the tab list is absent or
empty. -/
def renderTabs (cfg : TopNavConfig) : Option (List RenderedTab) :=
  if cfg.tabs.isEmpty then none else some (renderTabsFrom cfg 0 cfg.tabs)

/-- The top-nav default visual (container fields the claims touch plus the
rendered tab strip). -/
structure TopNavVisual where
  height : Nat
  backgroundColor : String
  zIndex : Nat
  containerStyle : Option StyleTok
  tabs : Option (List RenderedTab)
deriving DecidableEq

/-- The top-nav render result: custom renderer verbatim, a horizontal
`<ScrollView>` strip, or a fixed row. -/
inductive TopNavRender where
  | custom (content : Node)
  | scrollStrip (d : TopNavVisual)
  | fixedRow (d : TopNavVisual)
deriving DecidableEq

/-- Source `renderTopNavigationBar` (lines 1175–1382). -/
def renderTopNavigationBar (present : Bool) (cfg : TopNavConfig) (scheme : Option Scheme) :
    Option TopNavRender :=
  if !present || cfg.hidden then none
  else
    match cfg.customTopNavigationBar with
    | some f => some (TopNavRender.custom (f ()))
    | none =>
        let d : TopNavVisual :=
          { height := jsOrNum cfg.height 48
            backgroundColor := finalTopNavBgColor cfg scheme
            zIndex := jsOrNum cfg.zIndex 1000
            containerStyle := cfg.containerStyle
            tabs := renderTabs cfg }
        if cfg.scrollable then some (TopNavRender.scrollStrip d)
        else some (TopNavRender.fixedRow d)

/-! ### Bottom sheet (Scaffold.tsx lines 178–204 and 767–870,
types/bottomSheet.ts) -/

/-- A caller-supplied safe-area insets record; each edge is optional
(`insets?.edge ?? 0`). -/
structure SafeAreaInsets where
  top : Option Nat := none
  bottom : Option Nat := none
  left : Option Nat := none
  right : Option Nat := none
deriving DecidableEq, Repr

/-- Bottom-sheet configuration, restricted to the fields `Scaffold.tsx`
reads. -/
structure BottomSheetConfig where
  visible : Bool := false
  animationDuration : Option Nat := none
  customBottomSheet : Option (Unit → Node) := none
  useSafeArea : Bool := false
  safeAreaInsets : Option SafeAreaInsets := none
  closeOnOverlayPress : Bool := false
  overlayColor : Option String := none
  adaptiveTheme : Bool := false
  autoDetectTheme : Bool := false
  backgroundColor : Option String := none
  width : Option Dim := none
  borderTopLeftRadius : Option Nat := none
  borderTopRightRadius : Option Nat := none
  paddingBottom : Option Nat := none
  paddingLeft : Option Nat := none
  paddingRight : Option Nat := none
  containerStyle : Option StyleTok := none
  header : Option Node := none
  children : Option Node := none
  footer : Option Node := none

/-- An animation start command issued by the slide effect: an optional
`setValue` performed before starting, the animation target, and its
duration in milliseconds. -/
structure AnimStart where
  setToBeforeStart : Option Int
  toValue : Int
  duration : Nat
deriving DecidableEq, Repr

/-- The bottom-sheet slide effect (lines 181–204): on the false→true edge
of the resolved visible flag, set the slide value to the off-screen
constant 1000 and animate toward 0; on the true→false edge animate back
toward 1000; otherwise start nothing.  Returns the updated
`prevVisible.current` and the animation started, if any.  When the
`bottomSheet` prop is absent the effect returns early and `prevVisible`
is not updated. -/
def bottomSheetEffect (sheetPresent : Bool) (cfg : BottomSheetConfig) (prevVisible : Bool) :
    Bool × Option AnimStart :=
  if !sheetPresent then (prevVisible, none)
  else
    let isVisible := cfg.visible
    if isVisible && !prevVisible then
      (isVisible,
        some { setToBeforeStart := some 1000
               toValue := 0
               duration := jsOrNum cfg.animationDuration 300 })
    else if !isVisible && prevVisible then
      (isVisible,
        some { setToBeforeStart := none
               toValue := 1000
               duration := jsOrNum cfg.animationDuration 300 })
    else (isVisible, none)

/-- Source `getAdaptiveBottomSheetStyle` (lines 324–344). -/
def getAdaptiveBottomSheetStyle (cfg : BottomSheetConfig) (colorScheme : Option Scheme) :
    AdaptivePatch :=
  match colorScheme with
  | some scheme =>
      if cfg.adaptiveTheme then
        { backgroundColor :=
            some (if scheme = Scheme.dark then jsOrStr cfg.backgroundColor "#1a1a1a"
                  else jsOrStr cfg.backgroundColor "#ffffff") }
      else if cfg.autoDetectTheme then
        { backgroundColor :=
            some (if scheme = Scheme.dark then jsOrStr cfg.backgroundColor "#1a1a1a"
                  else jsOrStr cfg.backgroundColor "#ffffff") }
      else {}
  | none => {}

/-- Source `finalBottomSheetBgColor` (lines 399–402). -/
def finalBottomSheetBgColor (cfg : BottomSheetConfig) (scheme : Option Scheme) : String :=
  jsOrStr (jsOrOpt (getAdaptiveBottomSheetStyle cfg scheme).backgroundColor cfg.backgroundColor)
    "#ffffff"

/-- The bottom-sheet default visual (overlay plus sliding panel); fields
mirror the style entries the source computes at lines 784–868. -/
structure SheetDefaultVisual where
  overlayColor : String
  overlayDismissible : Bool
  width : Dim
  backgroundColor : String
  borderTopLeftRadius : Nat
  borderTopRightRadius : Nat
  paddingBottom : Nat
  paddingLeft : Nat
  paddingRight : Nat
  translateY : Int
  containerStyle : Option StyleTok
  header : Option Node
  children : Option Node
  footer : Option Node
deriving DecidableEq

/-- The bottom-sheet render result. -/
inductive SheetRender where
  | custom (content : Node)
  | defaultVisual (d : SheetDefaultVisual)
deriving DecidableEq

/-- Source `renderBottomSheet` (lines 767–870): nothing unless the prop is present
and the resolved visible flag is set; the custom renderer's output
verbatim when supplied; else the overlay-plus-panel default visual whose
vertical offset is the current slide value. -/
def renderBottomSheet (sheetPresent : Bool) (cfg : BottomSheetConfig) (scheme : Option Scheme)
    (slide : Int) : Option SheetRender :=
  if !sheetPresent || !cfg.visible then none
  else
    match cfg.customBottomSheet with
    | some f => some (SheetRender.custom (f ()))
    | none =>
        let safeAreaBottom :=
          if cfg.useSafeArea then ((cfg.safeAreaInsets.map SafeAreaInsets.bottom).join).getD 0
          else 0
        let safeAreaLeft :=
          if cfg.useSafeArea then ((cfg.safeAreaInsets.map SafeAreaInsets.left).join).getD 0
          else 0
        let safeAreaRight :=
          if cfg.useSafeArea then ((cfg.safeAreaInsets.map SafeAreaInsets.right).join).getD 0
          else 0
        some (SheetRender.defaultVisual
          { overlayColor := jsOrStr cfg.overlayColor "rgba(0,0,0,0.5)"
            overlayDismissible := cfg.closeOnOverlayPress
            width := jsOrDim cfg.width (Dim.str "100%")
            backgroundColor := finalBottomSheetBgColor cfg scheme
            borderTopLeftRadius := cfg.borderTopLeftRadius.getD 20
            borderTopRightRadius := cfg.borderTopRightRadius.getD 20
            paddingBottom := cfg.paddingBottom.getD 0 + safeAreaBottom
            paddingLeft := cfg.paddingLeft.getD 0 + safeAreaLeft
            paddingRight := cfg.paddingRight.getD 0 + safeAreaRight
            translateY := slide
            containerStyle := cfg.containerStyle
            header := cfg.header
            children := cfg.children
            footer := cfg.footer })

/-! ### Floating action button (Scaffold.tsx lines 873–1010,
types/floatingActionButton.ts) -/

/-- One entry of the FAB's `transform` array. -/
inductive FabTransform where
  | rotate (deg : Nat)
  | scale (s : Nat)
  | explicitTok (t : Nat)
deriving DecidableEq, Repr

/-- FAB configuration, restricted to the fields `Scaffold.tsx` reads for
the computations the claims touch; remaining style entries are forwarded
verbatim by the source. -/
structure FabConfig where
  hidden : Bool := false
  customFloatingActionButton : Option (Unit → Node) := none
  size : Option Nat := none
  width : Option Dim := none
  height : Option Dim := none
  backgroundColor : Option String := none
  adaptiveTheme : Bool := false
  autoDetectTheme : Bool := false
  borderRadius : Option Nat := none
  position : Option String := none
  bottom : Option Nat := none
  right : Option Nat := none
  left : Option Nat := none
  top : Option Nat := none
  useSafeArea : Bool := false
  safeAreaInsets : Option SafeAreaInsets := none
  rotation : Option Nat := none
  scale : Option Nat := none
  transform : Option (List FabTransform) := none
  zIndex : Option Nat := none
  containerStyle : Option StyleTok := none
  icon : Option Node := none
  label : Option (String ⊕ Node) := none

/-- Source `getAdaptiveFABStyle` (lines 301–321): both branches emit the config's
own color or the fixed `#007AFF` default, for either scheme. -/
def getAdaptiveFABStyle (cfg : FabConfig) (colorScheme : Option Scheme) : AdaptivePatch :=
  match colorScheme with
  | some _ =>
      if cfg.adaptiveTheme then
        { backgroundColor := some (jsOrStr cfg.backgroundColor "#007AFF") }
      else if cfg.autoDetectTheme then
        { backgroundColor := some (jsOrStr cfg.backgroundColor "#007AFF") }
      else {}
  | none => {}

/-- Source `finalFABBgColor` (lines 395–398). -/
def finalFABBgColor (cfg : FabConfig) (scheme : Option Scheme) : String :=
  jsOrStr (jsOrOpt (getAdaptiveFABStyle cfg scheme).backgroundColor cfg.backgroundColor)
    "#007AFF"

/-- The FAB default visual: the computed dimension/position/transform
fields (lines 893–1008). -/
structure FabDefaultVisual where
  width : Dim
  height : Dim
  backgroundColor : String
  borderRadius : Nat
  positionAbsolute : Bool
  bottom : Nat
  right : Nat
  left : Option Nat
  top : Option Nat
  zIndex : Nat
  transforms : Option (List FabTransform)
  containerStyle : Option StyleTok
  icon : Option Node
  label : Option (String ⊕ Node)
deriving DecidableEq

/-- The FAB render result. -/
inductive FabRender where
  | custom (content : Node)
  | defaultVisual (d : FabDefaultVisual)
deriving DecidableEq

/-- Source `renderFloatingActionButton` (lines 873–1010).  `fabSize = size || 56`;
`width`/`height` fall back to `fabSize`; `borderRadius ?? fabSize / 2`;
`bottom = (bottom ?? 16) + safeAreaBottom`; `right` defaults to 16 before
the safe-area addition; `rotation`/`scale` are pushed onto the transform
list only when truthy (nonzero). -/
def renderFloatingActionButton (fabPresent : Bool) (cfg : FabConfig)
    (scheme : Option Scheme) : Option FabRender :=
  if !fabPresent || cfg.hidden then none
  else
    match cfg.customFloatingActionButton with
    | some f => some (FabRender.custom (f ()))
    | none =>
        let safeAreaBottom :=
          if cfg.useSafeArea then ((cfg.safeAreaInsets.map SafeAreaInsets.bottom).join).getD 0
          else 0
        let safeAreaLeft :=
          if cfg.useSafeArea then ((cfg.safeAreaInsets.map SafeAreaInsets.left).join).getD 0
          else 0
        let safeAreaRight :=
          if cfg.useSafeArea then ((cfg.safeAreaInsets.map SafeAreaInsets.right).join).getD 0
          else 0
        let safeAreaTop :=
          if cfg.useSafeArea then ((cfg.safeAreaInsets.map SafeAreaInsets.top).join).getD 0
          else 0
        let fabSize := jsOrNum cfg.size 56
        let transforms : List FabTransform :=
          (match cfg.rotation with
           | some r => if r = 0 then [] else [FabTransform.rotate r]
           | none => []) ++
          (match cfg.scale with
           | some s => if s = 0 then [] else [FabTransform.scale s]
           | none => []) ++
          (match cfg.transform with
           | some l => l
           | none => [])
        some (FabRender.defaultVisual
          { width := jsOrDim cfg.width (Dim.num fabSize)
            height := jsOrDim cfg.height (Dim.num fabSize)
            backgroundColor := finalFABBgColor cfg scheme
            borderRadius := cfg.borderRadius.getD (fabSize / 2)
            positionAbsolute := jsOrStr cfg.position "absolute" = "absolute"
            bottom := cfg.bottom.getD 16 + safeAreaBottom
            right :=
              match cfg.right with
              | some r => r + safeAreaRight
              | none => 16 + safeAreaRight
            left :=
              match cfg.left with
              | some l => some (l + safeAreaLeft)
              | none => none
            top :=
              match cfg.top with
              | some t => some (t + safeAreaTop)
              | none => none
            zIndex := jsOrNum cfg.zIndex 9999
            transforms := if transforms.isEmpty then none else some transforms
            containerStyle := cfg.containerStyle
            icon := cfg.icon
            label := cfg.label })

/-- Projection: the default visual's width. -/
def FabRender.fabWidth : FabRender → Option Dim
  | FabRender.defaultVisual d => some d.width
  | _ => none

/-- Projection: the default visual's height. -/
def FabRender.fabHeight : FabRender → Option Dim
  | FabRender.defaultVisual d => some d.height
  | _ => none

/-- Projection: the default visual's corner radius. -/
def FabRender.fabBorderRadius : FabRender → Option Nat
  | FabRender.defaultVisual d => some d.borderRadius
  | _ => none

/-! ### Bottom navigation bar (Scaffold.tsx lines 1013–1172) -/

/-- Bottom-navigation-bar configuration, restricted to the fields the
claims touch; the remaining style entries are forwarded verbatim. -/
structure BottomNavConfig where
  hidden : Bool := false
  height : Option Nat := none
  backgroundColor : Option String := none
  adaptiveTheme : Bool := false
  autoDetectTheme : Bool := false
  zIndex : Option Nat := none
  elevated : Bool := false
  containerStyle : Option StyleTok := none
  backgroundView : Option Node := none
  children : Option Node := none
  renderCustom : Option (Nat → String → Node) := none

/-- Source `getAdaptiveBottomNavStyle` (lines 278–298). -/
def getAdaptiveBottomNavStyle (cfg : BottomNavConfig) (colorScheme : Option Scheme) :
    AdaptivePatch :=
  match colorScheme with
  | some scheme =>
      if cfg.adaptiveTheme then
        { backgroundColor :=
            some (if scheme = Scheme.dark then jsOrStr cfg.backgroundColor "#1a1a1a"
                  else jsOrStr cfg.backgroundColor "#ffffff") }
      else if cfg.autoDetectTheme then
        { backgroundColor :=
            some (if scheme = Scheme.dark then jsOrStr cfg.backgroundColor "#1a1a1a"
                  else jsOrStr cfg.backgroundColor "#ffffff") }
      else {}
  | none => {}

/-- Source `finalBottomNavBgColor` (lines 391–394). -/
def finalBottomNavBgColor (cfg : BottomNavConfig) (scheme : Option Scheme) : String :=
  jsOrStr (jsOrOpt (getAdaptiveBottomNavStyle cfg scheme).backgroundColor cfg.backgroundColor)
    "#ffffff"

/-- The bottom-nav default visual. -/
structure BottomNavVisual where
  height : Nat
  backgroundColor : String
  zIndex : Nat
  elevated : Bool
  containerStyle : Option StyleTok
  backgroundView : Option Node
  children : Option Node
deriving DecidableEq

/-- The bottom-nav render result. -/
inductive BottomNavRender where
  | custom (height : Nat) (zIndex : Nat) (containerStyle : Option StyleTok) (content : Node)
  | defaultVisual (d : BottomNavVisual)
deriving DecidableEq

/-- Source `renderBottomNavigationBar` (lines 1013–1172). `measured` is the
transient measured-height state (initialised to
`bottomNavigationBar?.height || 56`). -/
def renderBottomNavigationBar (present : Bool) (cfg : BottomNavConfig) (measured : Nat)
    (scheme : Option Scheme) : Option BottomNavRender :=
  if !present || cfg.hidden then none
  else
    match cfg.renderCustom with
    | some f =>
        some (BottomNavRender.custom measured (jsOrNum cfg.zIndex 1000) cfg.containerStyle
          (f measured (finalBottomNavBgColor cfg scheme)))
    | none =>
        some (BottomNavRender.defaultVisual
          { height := jsOrNum cfg.height 56
            backgroundColor := finalBottomNavBgColor cfg scheme
            zIndex := jsOrNum cfg.zIndex 1000
            elevated := cfg.elevated
            containerStyle := cfg.containerStyle
            backgroundView := cfg.backgroundView
            children := cfg.children })

/-! ### Top-level scaffold render (Scaffold.tsx lines 1384–1456) -/

/-- The transient per-instance state the renders read. -/
structure TransientState where
  statusBarHeight : Nat
  appBarHeight : Nat
  bottomNavHeight : Nat
  slideValue : Int
deriving DecidableEq, Repr

/-- The props handed to the native `<StatusBar>` element. -/
structure NativeStatusBarProps where
  hidden : Bool
  translucent : Bool := false
  backgroundColor : Option String := none
  barStyle : Option BarStyle := none
  animated : Bool := false
deriving DecidableEq

/-- The visual tree one render pass of the Scaffold produces: which regions
were rendered and with what. -/
structure ScaffoldTree where
  nativeStatusBar : NativeStatusBarProps
  statusBarVisual : Option StatusBarRender
  appBar : AppBarRender
  topNav : Option TopNavRender
  body : BodyRender
  bottomNav : Option BottomNavRender
  fab : Option FabRender
  bottomSheet : Option SheetRender

/-- The Scaffold's render (lines 1384–1456), over the platform-resolved
configurations (the platform-override merge itself is modelled by
`getPlatformStatusBarConfig`).  An absent region prop resolves to the
empty config `{}` (lines 149–176).  When the resolved status-bar config
has `hidden = true` the early-return branch (lines 1385–1407) renders the
native status bar as hidden and the app bar, top nav, body, bottom nav
and FAB — but neither the status-bar visual nor the bottom sheet. -/
def scaffold (statusBar : Option StatusBarConfig) (appBar : Option AppBarConfig)
    (body : Option BodyConfig) (bottomNavigationBar : Option BottomNavConfig)
    (floatingActionButton : Option FabConfig) (bottomSheet : Option BottomSheetConfig)
    (topNavigationBar : Option TopNavConfig) (scheme : Option Scheme) (systemRTL : Bool)
    (st : TransientState) : ScaffoldTree :=
  let sbCfg := statusBar.getD {}
  let abCfg := appBar.getD {}
  let bCfg := body.getD {}
  let bnCfg := bottomNavigationBar.getD {}
  let fCfg := floatingActionButton.getD {}
  let shCfg := bottomSheet.getD {}
  let tnCfg := topNavigationBar.getD {}
  if sbCfg.hidden then
    { nativeStatusBar := { hidden := true }
      statusBarVisual := none
      appBar := renderAppBar abCfg st.appBarHeight scheme systemRTL
      topNav := renderTopNavigationBar topNavigationBar.isSome tnCfg scheme
      body := renderBodyContent bCfg scheme
      bottomNav := renderBottomNavigationBar bottomNavigationBar.isSome bnCfg
        st.bottomNavHeight scheme
      fab := renderFloatingActionButton floatingActionButton.isSome fCfg scheme
      bottomSheet := none }
  else
    { nativeStatusBar :=
        { hidden := false
          translucent := sbCfg.translucent
          backgroundColor :=
            if sbCfg.translucent then some "transparent"
            else finalStatusBarBgColor sbCfg scheme
          barStyle := finalStatusBarStyle sbCfg scheme
          animated := sbCfg.animatedVisibility }
      statusBarVisual := some (renderStatusBarBackground sbCfg st.statusBarHeight scheme)
      appBar := renderAppBar abCfg st.appBarHeight scheme systemRTL
      topNav := renderTopNavigationBar topNavigationBar.isSome tnCfg scheme
      body := renderBodyContent bCfg scheme
      bottomNav := renderBottomNavigationBar bottomNavigationBar.isSome bnCfg
        st.bottomNavHeight scheme
      fab := renderFloatingActionButton floatingActionButton.isSome fCfg scheme
      bottomSheet := renderBottomSheet bottomSheet.isSome shCfg scheme st.slideValue }

/-- A concrete tab whose own `onPress` callback throws. -/
def throwingTab : Tab :=
  { id := TabId.num 1, onPress := some (fun _ => Except.error "boom") }

/-- A concrete global `onTabChange` callback that throws. -/
def throwingOnTabChange : JsCallback TabId :=
  fun _ => Except.error "crash"

end Scaffold

namespace Scaffold

/-! ### First theorems (claims C3 and C4) -/

/-- C3: For every region, base config and OS-override sub-record, platform
resolution is a shallow per-field merge — a field present in the active
OS's override replaces the base field, an absent field retains the base
value, an absent (empty) base yields just the override fields — and
re-resolving an already-resolved record against an empty (or absent)
override yields the same record; on the spec's example, base `{a:1,b:2}`
with override `{b:3}` resolves to `{a:1,b:3}`. -/
theorem C3_os_override_merge :
    (∀ (α : Type) (base ov : ObjRec α) (k : String),
        getPlatformStatusBarConfig OS.ios (some ⟨base, some ov, none⟩) k
          = match ov k with
            | some v => some v
            | none => base k)
    ∧ (∀ (α : Type) (base ov : ObjRec α) (k : String),
        getPlatformStatusBarConfig OS.android (some ⟨base, none, some ov⟩) k
          = match ov k with
            | some v => some v
            | none => base k)
    ∧ (∀ (α : Type) (ov : ObjRec α) (k : String),
        getPlatformStatusBarConfig OS.ios (some ⟨emptyRec, some ov, none⟩) k = ov k)
    ∧ (∀ (α : Type) (r : ObjRec α),
        getPlatformStatusBarConfig OS.ios (some ⟨r, some emptyRec, none⟩) = r
          ∧ getPlatformStatusBarConfig OS.ios (some ⟨r, none, none⟩) = r)
    ∧ (getPlatformStatusBarConfig OS.ios (some ⟨exBase, some exOv, none⟩) "a" = some 1
        ∧ getPlatformStatusBarConfig OS.ios (some ⟨exBase, some exOv, none⟩) "b" = some 3
        ∧ getPlatformStatusBarConfig OS.ios (some ⟨exBase, some exOv, none⟩) "c" = none) := by
  refine ⟨?_, ?_, ?_, ?_, ?_, ?_, ?_⟩
  · intro α base ov k
    simp only [getPlatformStatusBarConfig, spread]
  · intro α base ov k
    simp only [getPlatformStatusBarConfig, spread]
  · intro α ov k
    simp only [getPlatformStatusBarConfig, spread, emptyRec]
    cases ov k <;> rfl
  · intro α r
    constructor
    · funext k
      simp only [getPlatformStatusBarConfig, spread, emptyRec]
    · rfl
  · decide
  · decide
  · decide

/-- C4: For every status-bar and app-bar configuration and both known color
schemes, the theme-adaptation patch with `adaptiveTheme = true` and
`autoDetectTheme = true` equals the patch with `adaptiveTheme = true`
alone: the adaptive branch takes priority. -/
theorem C4_adaptive_priority :
    (∀ (cfg : StatusBarConfig) (s : Scheme),
        getAdaptiveStatusBarStyle { cfg with adaptiveTheme := true, autoDetectTheme := true }
            (some s)
          = getAdaptiveStatusBarStyle { cfg with adaptiveTheme := true, autoDetectTheme := false }
            (some s))
    ∧ (∀ (cfg : AppBarConfig) (s : Scheme),
        getAdaptiveAppBarStyle { cfg with adaptiveTheme := true, autoDetectTheme := true }
            (some s)
          = getAdaptiveAppBarStyle { cfg with adaptiveTheme := true, autoDetectTheme := false }
            (some s)) := by
  constructor
  · intro cfg s
    rfl
  · intro cfg s
    rfl

/-- C1: the claim says `scrollEnabled = true` makes the body render wrap the
caller content in a scroll container with scroll tracking.  The code never
reads `scrollEnabled`: for every body configuration the render is
independent of the flag, and on the concrete failing input
`{ scrollEnabled := true, view := tok 7 }` the output is the static branch
rendering the caller content directly. -/
theorem C1_scrollEnabled_never_read :
    (∀ (cfg : BodyConfig) (scheme : Option Scheme),
        renderBodyContent { cfg with scrollEnabled := true } scheme
          = renderBodyContent { cfg with scrollEnabled := false } scheme)
    ∧ (renderBodyContent bodyScrollCfg none).staticView = some (some (Node.tok 7))
    ∧ renderBodyContent bodyScrollCfg none
        = renderBodyContent { bodyScrollCfg with scrollEnabled := false } none := by
  refine ⟨?_, ?_, ?_⟩
  · intro cfg scheme
    rfl
  · rfl
  · rfl

/-- C2: with `adaptiveTheme = true`, dark scheme and no configured
background color, the theme adapter emits `#1a1a1a` and
`finalAppBarBgColor` resolves to it, but the app bar's default visual is
composed from `platformAppBarConfig.backgroundColor || '#ffffff'` directly
(line 656) and renders `#ffffff`, ignoring the emitted color; by contrast
the custom-renderer branch and the body's default visual do receive the
emitted color. -/
theorem C2_appbar_ignores_final_color :
    finalAppBarBgColor appBarAdaptiveCfg (some Scheme.dark) = "#1a1a1a"
    ∧ (renderAppBar appBarAdaptiveCfg 56 (some Scheme.dark) false).visualBg
        = some "#ffffff"
    ∧ renderAppBar
          { appBarAdaptiveCfg with
              renderCustomAppBar := some (fun a => Node.text a.backgroundColor) }
          56 (some Scheme.dark) false
        = AppBarRender.custom 56 1000 none (Node.text "#1a1a1a")
    ∧ (renderBodyContent { adaptiveTheme := true } (some Scheme.dark)).staticBg
        = some "#1a1a1a" := by
  refine ⟨rfl, rfl, rfl, rfl⟩

/-- C5 counterexample: the claim says no region styling field (including
`containerStyle` and `zIndex`) is applied in the custom-renderer branch;
but two app-bar configs that differ only in `zIndex` (resp. only in
`containerStyle`), both with the same custom renderer, produce different
render output — the wrapper applies those fields. -/
theorem C5_counterexample_styling_applied :
    renderAppBar { appBarCustomCfg with zIndex := some 5 } 56 none false
        ≠ renderAppBar appBarCustomCfg 56 none false
    ∧ renderAppBar { appBarCustomCfg with containerStyle := some 3 } 56 none false
        ≠ renderAppBar appBarCustomCfg 56 none false := by
  refine ⟨?_, ?_⟩ <;> decide

/-- C5 (amended): for every non-hidden region config with a custom renderer
callback, the render is the callback's return value — invoked with the
region's computed height and background (and assembled sections for the
app bar) — wrapped in a container that applies only the measured height,
the region's `zIndex` (defaults: 1000 app bar, 100 status bar) and its
`containerStyle`; the default-visual assembly does not execute and no
other styling field of the region is applied. -/
theorem C5_custom_renderer_branch (cfg : AppBarConfig) (f : AppBarCustomArgs → Node)
    (h : Nat) (scheme : Option Scheme) (rtl : Bool)
    (hf : cfg.renderCustomAppBar = some f) (hh : cfg.hidden = false)
    (scfg : StatusBarConfig) (g : Nat → Option String → Node) (m : Nat)
    (hg : scfg.renderCustomStatusBar = some g) :
    renderAppBar cfg h scheme rtl
      = AppBarRender.custom h (jsOrNum cfg.zIndex 1000) cfg.containerStyle
          (f { height := h
               backgroundColor := finalAppBarBgColor cfg scheme
               leading := renderAppBarLeading cfg
               center := renderAppBarCenter cfg
               trailing := renderAppBarTrailing cfg })
    ∧ renderStatusBarBackground scfg m scheme
      = StatusBarRender.custom (statusBarHeightValue scfg m) (jsOrNum scfg.zIndex 100)
          scfg.containerStyle
          (g (statusBarHeightValue scfg m) (finalStatusBarBgColor scfg scheme)) := by
  constructor
  · simp only [renderAppBar, hf, hh, if_false, Bool.false_eq_true]
  · simp only [renderStatusBarBackground, hg]

/-- C5 witness: the amended custom-renderer-branch theorem applied at a
concrete app-bar and status-bar configuration. -/
theorem C5_custom_renderer_branch_witness :
    renderAppBar appBarCustomCfg 56 none false
      = AppBarRender.custom 56 1000 none (Node.tok 56)
    ∧ renderStatusBarBackground
          { renderCustomStatusBar := some (fun n _ => Node.tok n) } 24 none
      = StatusBarRender.custom 24 100 none (Node.tok 24) := by
  have := C5_custom_renderer_branch appBarCustomCfg (fun a => Node.tok a.height)
    56 none false rfl rfl
    { renderCustomStatusBar := some (fun n _ => Node.tok n) } (fun n _ => Node.tok n)
    24 rfl
  exact this

/-- C6: a tab press whose own `onPress` throws has the exception caught and
logged, and the global `onTabChange` is still invoked with that tab's id;
a throwing `onTabChange` is likewise caught and logged, so the press
handler completes normally with both warnings recorded. -/
theorem C6_tab_press_errors_caught (tab : Tab) (f : JsCallback Unit)
    (g : JsCallback TabId) (e : String)
    (hf : tab.onPress = some f) (he : f () = Except.error e) :
    (handlePress tab (some g)).tabChangeCalls = [tab.id]
    ∧ ("Error in tab onPress handler: " ++ e) ∈ (handlePress tab (some g)).warnings
    ∧ (∀ e2, g tab.id = Except.error e2 →
        (handlePress tab (some g)).warnings
          = ["Error in tab onPress handler: " ++ e,
             "Error in onTabChange handler: " ++ e2]) := by
  simp only [handlePress, hf, he]
  cases hg : g tab.id with
  | ok u =>
      refine ⟨rfl, by simp, fun e2 h2 => ?_⟩
      simp at h2
  | error e2 =>
      refine ⟨rfl, by simp, fun e3 h3 => ?_⟩
      cases h3
      rfl

/-- C6 witness: a concrete tab whose `onPress` throws, pressed with a
concrete throwing `onTabChange`. -/
theorem C6_tab_press_errors_caught_witness :
    (handlePress throwingTab (some throwingOnTabChange)).tabChangeCalls = [TabId.num 1]
    ∧ ("Error in tab onPress handler: " ++ "boom")
        ∈ (handlePress throwingTab (some throwingOnTabChange)).warnings
    ∧ (handlePress throwingTab (some throwingOnTabChange)).warnings
        = ["Error in tab onPress handler: " ++ "boom",
           "Error in onTabChange handler: " ++ "crash"] := by
  have h := C6_tab_press_errors_caught throwingTab (fun _ => Except.error "boom")
    throwingOnTabChange "boom" rfl rfl
  exact ⟨h.1, h.2.1, h.2.2 "crash" rfl⟩

/-- Helper: the indexed tab map marks a tab active exactly when the string
coercions of its id and of the active id agree, at every position and for
every starting index. -/
theorem renderTabsFrom_isActive (cfg : TopNavConfig) (i : Nat) (ts : List Tab) :
    (renderTabsFrom cfg i ts).map RenderedTab.isActive
      = ts.map (fun t => jsStringOfId t.id == jsStringOfActiveId cfg.activeTabId) := by
  induction ts generalizing i with
  | nil => rfl
  | cons t ts ih => simp [renderTabsFrom, renderOneTab, ih]

/-- C7: for every tab list and active id, a tab is rendered active exactly
when the JS string coercion of its id equals the string coercion of the
active id; in particular numeric id `1` matches active id `"1"`, while id
`1` does not match active id `2`. -/
theorem C7_tab_active_string_coercion :
    (∀ (cfg : TopNavConfig) (i : Nat) (ts : List Tab),
        (renderTabsFrom cfg i ts).map RenderedTab.isActive
          = ts.map (fun t => jsStringOfId t.id == jsStringOfActiveId cfg.activeTabId))
    ∧ (renderOneTab { activeTabId := some (TabId.str "1") } { id := TabId.num 1 } 0).isActive
        = true
    ∧ (renderOneTab { activeTabId := some (TabId.num 2) } { id := TabId.num 1 } 0).isActive
        = false := by
  refine ⟨fun cfg i ts => renderTabsFrom_isActive cfg i ts, ?_, ?_⟩ <;> rfl

/-- C8: on the false→true edge of the resolved visible flag the slide value
is set to the off-screen constant 1000 and an animation toward 0 is
started with duration `animationDuration || 300`; on the true→false edge
an animation toward 1000 is started; when the flag is unchanged no
animation is started; an absent duration yields the 300 ms default. -/
theorem C8_bottom_sheet_slide_edges (cfg : BottomSheetConfig) (prev : Bool) :
    (cfg.visible = true → prev = false →
        bottomSheetEffect true cfg prev
          = (true, some { setToBeforeStart := some 1000
                          toValue := 0
                          duration := jsOrNum cfg.animationDuration 300 }))
    ∧ (cfg.visible = false → prev = true →
        bottomSheetEffect true cfg prev
          = (false, some { setToBeforeStart := none
                           toValue := 1000
                           duration := jsOrNum cfg.animationDuration 300 }))
    ∧ (cfg.visible = prev → (bottomSheetEffect true cfg prev).2 = none)
    ∧ (cfg.animationDuration = none → jsOrNum cfg.animationDuration 300 = 300) := by
  refine ⟨?_, ?_, ?_, ?_⟩
  · intro hv hp
    simp [bottomSheetEffect, hv, hp]
  · intro hv hp
    simp [bottomSheetEffect, hv, hp]
  · intro hvp
    rcases h : cfg.visible with _ | _ <;>
      simp_all [bottomSheetEffect]
  · intro hd
    simp [jsOrNum, hd]

/-- C8 witness: the slide-edge theorem applied on the false→true edge of a
concrete configuration with the default duration. -/
theorem C8_bottom_sheet_slide_edges_witness :
    bottomSheetEffect true { visible := true } false
      = (true, some { setToBeforeStart := some 1000, toValue := 0, duration := 300 }) := by
  have h := (C8_bottom_sheet_slide_edges { visible := true } false).1 rfl rfl
  exact h

/-- C9: when the resolved status-bar config has `hidden = true` the
scaffold takes the early-return branch: the bottom-sheet renderer is not
invoked (no bottom sheet is rendered, whatever its config says), no
status-bar visual is produced, the native status bar is requested hidden,
and the app bar, top nav, body, bottom nav and FAB are still rendered by
their usual renderers. -/
theorem C9_statusbar_hidden_no_bottom_sheet
    (sb : Option StatusBarConfig) (ab : Option AppBarConfig) (b : Option BodyConfig)
    (bn : Option BottomNavConfig) (fb : Option FabConfig) (sh : Option BottomSheetConfig)
    (tn : Option TopNavConfig) (scheme : Option Scheme) (rtl : Bool) (st : TransientState)
    (h : (sb.getD {}).hidden = true) :
    (scaffold sb ab b bn fb sh tn scheme rtl st).bottomSheet = none
    ∧ (scaffold sb ab b bn fb sh tn scheme rtl st).statusBarVisual = none
    ∧ (scaffold sb ab b bn fb sh tn scheme rtl st).nativeStatusBar.hidden = true
    ∧ (scaffold sb ab b bn fb sh tn scheme rtl st).appBar
        = renderAppBar (ab.getD {}) st.appBarHeight scheme rtl
    ∧ (scaffold sb ab b bn fb sh tn scheme rtl st).topNav
        = renderTopNavigationBar tn.isSome (tn.getD {}) scheme
    ∧ (scaffold sb ab b bn fb sh tn scheme rtl st).body
        = renderBodyContent (b.getD {}) scheme
    ∧ (scaffold sb ab b bn fb sh tn scheme rtl st).bottomNav
        = renderBottomNavigationBar bn.isSome (bn.getD {}) st.bottomNavHeight scheme
    ∧ (scaffold sb ab b bn fb sh tn scheme rtl st).fab
        = renderFloatingActionButton fb.isSome (fb.getD {}) scheme := by
  simp only [scaffold, h, if_true]
  exact ⟨trivial, trivial, trivial, trivial, trivial, trivial, trivial, trivial⟩

/-- C9 witness: concrete props with the status bar hidden and a present,
visible bottom sheet — which `renderBottomSheet` alone would render —
still produce no bottom sheet in the tree, while the app bar renders. -/
theorem C9_statusbar_hidden_no_bottom_sheet_witness :
    (scaffold (some { hidden := true }) (some {}) (some { view := some (Node.tok 1) })
        none none (some { visible := true, children := some (Node.tok 2) }) none none false
        ⟨24, 56, 56, 0⟩).bottomSheet = none
    ∧ (scaffold (some { hidden := true }) (some {}) (some { view := some (Node.tok 1) })
        none none (some { visible := true, children := some (Node.tok 2) }) none none false
        ⟨24, 56, 56, 0⟩).appBar
        = renderAppBar {} 56 none false
    ∧ renderBottomSheet true { visible := true, children := some (Node.tok 2) } none 0 ≠ none := by
  have h := C9_statusbar_hidden_no_bottom_sheet (some { hidden := true }) (some {})
    (some { view := some (Node.tok 1) }) none none
    (some { visible := true, children := some (Node.tok 2) }) none none false
    ⟨24, 56, 56, 0⟩ rfl
  exact ⟨h.1, h.2.2.2.1, by simp [renderBottomSheet]⟩

/-- C10: a configured value of 0 falls through the logical-or fallbacks —
an app-bar height of 0 renders the default visual with height 56 and is
indistinguishable from an absent height; a FAB size of 0 yields width and
height 56 and corner radius 28, indistinguishable from an absent size;
and a bottom-sheet `animationDuration` of 0 starts the show animation with
the 300 ms default, indistinguishable from an absent duration. -/
theorem C10_zero_indistinguishable_from_absent :
    (renderAppBar { height := some 0 } 56 none false).visualHeight = some 56
    ∧ renderAppBar { height := some 0 } 56 none false
        = renderAppBar ({} : AppBarConfig) 56 none false
    ∧ ((renderFloatingActionButton true { size := some 0 } none).bind FabRender.fabWidth)
        = some (Dim.num 56)
    ∧ ((renderFloatingActionButton true { size := some 0 } none).bind FabRender.fabHeight)
        = some (Dim.num 56)
    ∧ ((renderFloatingActionButton true { size := some 0 } none).bind
          FabRender.fabBorderRadius)
        = some 28
    ∧ renderFloatingActionButton true { size := some 0 } none
        = renderFloatingActionButton true ({} : FabConfig) none
    ∧ bottomSheetEffect true { visible := true, animationDuration := some 0 } false
        = (true, some { setToBeforeStart := some 1000, toValue := 0, duration := 300 })
    ∧ bottomSheetEffect true { visible := true, animationDuration := some 0 } false
        = bottomSheetEffect true { visible := true } false := by
  refine ⟨rfl, rfl, rfl, rfl, rfl, rfl, rfl, rfl⟩

end Scaffold
